import Mathlib

/-!
Verification of the pybedrock extension module (src/bedrock/src/bedrock.cpp)
and of the service-configuration protocol it fronts.

The file embeds, shallowly:
- the binding metadata of the module (registered exception class, bound
  methods, their keyword arguments and default values), read off the
  PYBIND11_MODULE block at bedrock.cpp lines 23 to 85;
- the runtime behaviour of the seven bound ServiceHandle lambdas: each calls
  one member function of the C++ ServiceHandle through an abstract
  request/response channel, returns the produced value, and lets a thrown
  bedrock::Exception be translated into the registered Python exception
  class (bedrock.cpp line 25);
- the daemon side ServiceManager admission protocol, which is not part of
  this repository source tree; those definitions are modelled from the spec
  and say so in their doc comments.
-/

set_option autoImplicit false

/-- A dependency map: role name to the ordered list of target identifiers.
Modelled from the spec: the C++ DependencyMap typedef lives in the bedrock
headers, which are not under src/; spec section 3 describes it as a mapping
from a role name to one or more target identifiers whose order is
caller-significant. -/
abbrev DependencyMap : Type := List (String × List String)

/-- Python-level values crossing the binding boundary. -/
inductive PyVal
  | str (s : String)
  | int (n : Int)
  | depMap (m : DependencyMap)
  | pynone
  deriving DecidableEq, Repr

/-- C++ argument and return types appearing in the binding signatures. -/
inductive PyTy
  | str
  | u16
  | depMapTy
  | capsule
  | serviceHandleTy
  | void
  deriving DecidableEq, Repr

/-- Default value attached to a keyword argument of a bound method. -/
inductive DefaultVal
  | str (s : String)
  | nat (n : Nat)
  | emptyDepMap
  deriving DecidableEq, Repr

/-- The Python value a default produces when the caller omits the argument. -/
def DefaultVal.toPyVal : DefaultVal → PyVal
  | .str s => .str s
  | .nat n => .int (Int.ofNat n)
  | .emptyDepMap => .depMap []

/-- One declared argument of a bound method: its keyword name, C++ type and
optional default. -/
structure Param where
  name : String
  ty : PyTy
  dflt : Option DefaultVal
  deriving DecidableEq, Repr

/-- A bound method of the extension module: name, arguments after self, and
return type. -/
structure Method where
  name : String
  params : List Param
  ret : PyTy
  deriving DecidableEq, Repr

/-- Client.create_service_handle binding, bedrock.cpp lines 28 to 32:
arguments address and provider_id, the latter defaulting to 0. -/
def create_service_handle_sig : Method :=
  { name := "create_service_handle",
    params := [⟨"address", .str, none⟩, ⟨"provider_id", .u16, some (.nat 0)⟩],
    ret := .serviceHandleTy }

/-- ServiceHandle.get_config binding, bedrock.cpp lines 34 to 39: no
arguments, returns the fetched configuration string. -/
def get_config_sig : Method :=
  { name := "get_config", params := [], ret := .str }

/-- ServiceHandle.query_config binding, bedrock.cpp lines 40 to 45: one
script argument, returns the produced result string. -/
def query_config_sig : Method :=
  { name := "query_config", params := [⟨"script", .str, none⟩], ret := .str }

/-- ServiceHandle.add_ssg_group binding, bedrock.cpp lines 46 to 49. -/
def add_ssg_group_sig : Method :=
  { name := "add_ssg_group", params := [⟨"config", .str, none⟩], ret := .void }

/-- ServiceHandle.create_abtio_instance binding, bedrock.cpp lines 50 to 56:
name and pool have no default, config defaults to the empty JSON object. -/
def create_abtio_instance_sig : Method :=
  { name := "create_abtio_instance",
    params := [⟨"name", .str, none⟩, ⟨"pool", .str, none⟩,
               ⟨"config", .str, some (.str "\x7b\x7d")⟩],
    ret := .void }

/-- ServiceHandle.load_module binding, bedrock.cpp lines 57 to 62. -/
def load_module_sig : Method :=
  { name := "load_module",
    params := [⟨"name", .str, none⟩, ⟨"path", .str, none⟩],
    ret := .void }

/-- ServiceHandle.start_provider binding, bedrock.cpp lines 63 to 74: six
arguments, the last four with defaults. -/
def start_provider_sig : Method :=
  { name := "start_provider",
    params := [⟨"name", .str, none⟩, ⟨"type", .str, none⟩,
               ⟨"provider_id", .u16, some (.nat 0)⟩,
               ⟨"pool", .str, some (.str "")⟩,
               ⟨"config", .str, some (.str "\x7b\x7d")⟩,
               ⟨"dependencies", .depMapTy, some .emptyDepMap⟩],
    ret := .void }

/-- ServiceHandle.create_client binding, bedrock.cpp lines 75 to 83: four
arguments, the last two with defaults. -/
def create_client_sig : Method :=
  { name := "create_client",
    params := [⟨"name", .str, none⟩, ⟨"type", .str, none⟩,
               ⟨"config", .str, some (.str "\x7b\x7d")⟩,
               ⟨"dependencies", .depMapTy, some .emptyDepMap⟩],
    ret := .void }

/-- The seven methods bound on the ServiceHandle class, in the order they are
registered at bedrock.cpp lines 33 to 84. -/
def serviceHandleMethods : List Method :=
  [get_config_sig, query_config_sig, add_ssg_group_sig,
   create_abtio_instance_sig, load_module_sig, start_provider_sig,
   create_client_sig]

/-- pybind11 call protocol for a positional call: the leading arguments are
supplied by the caller and the remaining ones are filled from the declared
defaults; a missing argument without a default, or an extra argument, rejects
the call. -/
def fillDefaults : List Param → List PyVal → Option (List PyVal)
  | [], [] => some []
  | [], _ :: _ => none
  | p :: ps, [] =>
      match p.dflt with
      | some d => (fillDefaults ps []).map (fun r => d.toPyVal :: r)
      | none => none
  | _ :: ps, v :: vs => (fillDefaults ps vs).map (fun r => v :: r)

/-- pybind11 conversion of a Python integer into the C++ uint16_t parameter
declared in the start_provider lambda at bedrock.cpp line 67: a value outside
0 to 65535 fails the conversion (a TypeError, raised before the lambda body
runs), an in-range value is passed through. -/
def u16FromPyInt (n : Int) : Option Nat :=
  if 0 ≤ n ∧ n ≤ 65535 then some n.toNat else none

/-- One request issued over RPC to the remote ServiceManager
(spec section 6). -/
inductive Request
  | getConfig
  | queryConfig (script : String)
  | addSSGGroup (config : String)
  | createABTioInstance (name pool config : String)
  | loadModule (name path : String)
  | startProvider (name ty : String) (provider_id : Nat) (pool config : String)
      (deps : DependencyMap)
  | createClient (name ty : String) (config : String) (deps : DependencyMap)
  deriving DecidableEq, Repr

/-- Outcome of entering the start_provider binding with a raw Python integer
for provider_id: either the argument conversion fails and no RPC is issued,
or the lambda body runs and the RPC carries the converted value. -/
inductive BindOutcome
  | typeError
  | rpc (req : Request)
  deriving DecidableEq, Repr

/-- The start_provider binding entry as seen from Python: convert provider_id
to uint16_t first (bedrock.cpp line 67), then forward every argument
unchanged into the RPC. -/
def start_provider_bind (name ty : String) (provider_id : Int)
    (pool config : String) (deps : DependencyMap) : BindOutcome :=
  match u16FromPyInt provider_id with
  | none => .typeError
  | some pid => .rpc (.startProvider name ty pid pool config deps)

/-- Failure taxonomy of the protocol (spec section 7). -/
inductive ErrorKind
  | Unreachable
  | NameConflict
  | UnknownType
  | UnknownPool
  | MissingDependency
  | UnresolvedDependency
  | DependencyArityError
  | ConstructionFailed
  | InvalidConfig
  | InvalidScript
  | LoadFailure
  deriving DecidableEq, Repr

/-- A bedrock::Exception: a failure kind plus a human readable message. -/
structure BedrockError where
  kind : ErrorKind
  message : String
  deriving DecidableEq, Repr

/-- Client-side state of a ServiceHandle: the address and the numeric
instance id it is bound to (spec section 4.1). -/
structure ServiceHandle where
  address : String
  provider_id : Nat
  deriving DecidableEq, Repr

/-- A Client wraps one margo communication engine instance, received as an
opaque capsule (bedrock.cpp lines 16 to 21 and 27); the capsule is modelled
as an opaque token. -/
structure Client where
  mid : Nat
  deriving DecidableEq, Repr

/-- Modelled from the spec: Client::makeServiceHandle, declared in the
bedrock C++ headers which are not under src/, binds the given address and
numeric instance id into a ServiceHandle and performs no network traffic
(spec section 4.1). -/
def Client.makeServiceHandle (_c : Client) (address : String)
    (provider_id : Nat) : ServiceHandle :=
  { address := address, provider_id := provider_id }

/-- The remote ServiceManager as reachable through one ServiceHandle: one
request/response entry per member function of the C++ ServiceHandle class
that the binding lambdas call; each call either succeeds with its result or
throws a bedrock::Exception. -/
structure Remote where
  getConfig : Except BedrockError String
  queryConfig : String → Except BedrockError String
  addSSGgroup : String → Except BedrockError Unit
  createABTioInstance : String → String → String → Except BedrockError Unit
  loadModule : String → String → Except BedrockError Unit
  startProvider : String → String → Nat → String → String → DependencyMap →
    Except BedrockError Unit
  createClient : String → String → String → DependencyMap →
    Except BedrockError Unit

/-- One invocation of a bound ServiceHandle operation, with its arguments;
the seven constructors correspond to the seven .def entries at bedrock.cpp
lines 33 to 84. -/
inductive Op
  | get_config
  | query_config (script : String)
  | add_ssg_group (config : String)
  | create_abtio_instance (name pool config : String)
  | load_module (name path : String)
  | start_provider (name ty : String) (provider_id : Nat) (pool config : String)
      (deps : DependencyMap)
  | create_client (name ty : String) (config : String) (deps : DependencyMap)
  deriving DecidableEq, Repr

/-- Dispatch of one bound operation to the corresponding remote call, with
the C++ result marshalled back to a Python value: get_config and query_config
return the produced string (bedrock.cpp lines 34 to 45), the five void
lambdas produce None. -/
def Remote.respond (r : Remote) : Op → Except BedrockError PyVal
  | .get_config => r.getConfig.map PyVal.str
  | .query_config script => (r.queryConfig script).map PyVal.str
  | .add_ssg_group config => (r.addSSGgroup config).map (fun _ => PyVal.pynone)
  | .create_abtio_instance name pool config =>
      (r.createABTioInstance name pool config).map (fun _ => PyVal.pynone)
  | .load_module name path =>
      (r.loadModule name path).map (fun _ => PyVal.pynone)
  | .start_provider name ty pid pool config deps =>
      (r.startProvider name ty pid pool config deps).map (fun _ => PyVal.pynone)
  | .create_client name ty config deps =>
      (r.createClient name ty config deps).map (fun _ => PyVal.pynone)

/-- The exception class registration of the module: Python class name, the
module registering it, and its Python base class. -/
structure ExceptionReg where
  moduleName : String
  pyName : String
  base : String
  deriving DecidableEq, Repr

/-- register_exception of bedrock::Exception at bedrock.cpp line 25: the
class is named Exception inside module _pybedrock and its base is the
built-in RuntimeError (PyExc_RuntimeError). -/
def bedrockExceptionReg : ExceptionReg :=
  { moduleName := "_pybedrock", pyName := "Exception", base := "RuntimeError" }

/-- The fully qualified Python name of a registered exception class. -/
def ExceptionReg.qualified (r : ExceptionReg) : String :=
  r.moduleName ++ "." ++ r.pyName

/-- What the Python caller observes from one call: a returned value or a
raised exception of some class, carrying a kind and a message. -/
inductive PyOutcome
  | ret (v : PyVal)
  | raised (cls : String) (kind : ErrorKind) (msg : String)
  deriving DecidableEq, Repr

/-- The pybind11 exception translator installed by register_exception at
bedrock.cpp line 25: a thrown bedrock::Exception reaches Python as the
registered exception class of the module, carrying the kind and message; a
normal return is delivered as the returned value. -/
def translateExc : Except BedrockError PyVal → PyOutcome
  | .ok v => .ret v
  | .error e => .raised bedrockExceptionReg.qualified e.kind e.message

/-- Execution of one bound ServiceHandle method (the lambdas at bedrock.cpp
lines 33 to 84): the handle is taken by const reference and comes out
untouched, and the outcome handed to Python is the translated result of the
remote call. -/
def ServiceHandle.invoke (sh : ServiceHandle) (r : Remote) (op : Op) :
    ServiceHandle × PyOutcome :=
  (sh, translateExc (r.respond op))

/-- The outcome shapes a caller can observe from the seven operations: a
returned string, a returned None, or a raised exception. -/
def PyOutcome.clientVisible : PyOutcome → Prop
  | .ret (.str _) => True
  | .ret .pynone => True
  | .raised _ _ _ => True
  | .ret (.int _) => False
  | .ret (.depMap _) => False

/-- The immediate base class of each Python exception class involved: the
registered class derives from RuntimeError (bedrock.cpp line 25), which
derives from the built-in Exception, which derives from BaseException. -/
def pyBase (c : String) : Option String :=
  if c == bedrockExceptionReg.qualified then some bedrockExceptionReg.base
  else if c == "RuntimeError" then some "Exception"
  else if c == "Exception" then some "BaseException"
  else none

/-- The chain of strict ancestors of a Python class, fuel-bounded. -/
def ancestorsFrom : Nat → String → List String
  | 0, _ => []
  | Nat.succ fuel, c =>
      match pyBase c with
      | none => []
      | some b => b :: ancestorsFrom fuel b

/-- Python except-clause semantics: a clause naming class cls catches a
raised exception of class exc when exc is cls or a strict subclass. -/
def catches (cls exc : String) : Bool :=
  cls == exc || (ancestorsFrom 8 exc).contains cls

/-- Modelled from the spec: an entry of the providers section of the
ConfigTree (spec section 3). -/
structure ProviderEntry where
  type : String
  provider_id : Nat
  pool : String
  config : String
  dependencies : DependencyMap
  deriving DecidableEq, Repr

/-- Modelled from the spec: an entry of the clients section of the
ConfigTree (spec section 3). -/
structure ClientEntry where
  type : String
  config : String
  dependencies : DependencyMap
  deriving DecidableEq, Repr

/-- Modelled from the spec: an entry of the abt_io_instances section of the
ConfigTree (spec section 3). -/
structure ABTioEntry where
  pool : String
  config : String
  deriving DecidableEq, Repr

/-- Modelled from the spec: the ConfigTree document of record with its named
sections (spec section 3); the daemon owning it is not under src/. -/
structure ConfigTree where
  modules : List (String × String)
  providers : List (String × ProviderEntry)
  clients : List (String × ClientEntry)
  abt_instances : List (String × ABTioEntry)
  ssg_groups : List String
  deriving DecidableEq, Repr

/-- The empty ConfigTree the daemon starts from (spec section 3). -/
def ConfigTree.empty : ConfigTree := ⟨[], [], [], [], []⟩

/-- Canonical rendering of a dependency map inside a serialized snapshot. -/
def renderDeps (d : DependencyMap) : String :=
  String.intercalate ";"
    (d.map (fun p => p.1 ++ "->" ++ String.intercalate "|" p.2))

/-- Canonical rendering of a provider entry. -/
def ProviderEntry.render (e : ProviderEntry) : String :=
  e.type ++ " " ++ toString e.provider_id ++ " " ++ e.pool ++ " " ++
    e.config ++ " " ++ renderDeps e.dependencies

/-- Canonical rendering of a client entry. -/
def ClientEntry.render (e : ClientEntry) : String :=
  e.type ++ " " ++ e.config ++ " " ++ renderDeps e.dependencies

/-- Canonical rendering of an ABT-IO entry. -/
def ABTioEntry.render (e : ABTioEntry) : String :=
  e.pool ++ " " ++ e.config

/-- Modelled from the spec: the serialized point-in-time snapshot returned by
getConfig (spec section 4.4), a deterministic rendering of every section. -/
def ConfigTree.serialize (t : ConfigTree) : String :=
  "modules " ++
    String.intercalate "," (t.modules.map (fun p => p.1 ++ "=" ++ p.2)) ++
  " providers " ++
    String.intercalate "," (t.providers.map (fun p => p.1 ++ "=" ++ p.2.render)) ++
  " clients " ++
    String.intercalate "," (t.clients.map (fun p => p.1 ++ "=" ++ p.2.render)) ++
  " abt " ++
    String.intercalate "," (t.abt_instances.map (fun p => p.1 ++ "=" ++ p.2.render)) ++
  " ssg " ++ String.intercalate "," t.ssg_groups

/-- Modelled from the spec: one dependency role declared by a component type
schema: its name, whether it is required, and whether it accepts multiple
bindings (spec sections 3 and 4.2 step 3). -/
structure DependencySpec where
  role : String
  required : Bool
  multiple : Bool
  deriving DecidableEq, Repr

/-- Modelled from the spec: a registered component type: its declared
dependency roles and its factory, which may fail with a message
(spec section 4.2 step 5 and section 9). -/
structure TypeSchema where
  name : String
  deps : List DependencySpec
  construct : String → Except String Unit

/-- Modelled from the spec: the daemon side ServiceManager state: the owned
ConfigTree, the type registry populated by loadModule, and the registered
execution pools (spec sections 2 and 4.2). -/
structure Manager where
  tree : ConfigTree
  types : List TypeSchema
  pools : List String

/-- Modelled from the spec: a dependency target naming a remote component is
written address-qualified; the qualified form is modelled as containing an
at-sign separator (spec section 4.2 step 3). -/
def isRemoteRef (target : String) : Bool := target.contains '@'

/-- Modelled from the spec: a supplied dependency target resolves when it is
a remote reference or names an existing provider or client
(spec section 4.2 step 3). -/
def targetResolves (t : ConfigTree) (target : String) : Bool :=
  isRemoteRef target || (t.providers.lookup target).isSome ||
    (t.clients.lookup target).isSome

/-- Modelled from the spec: eager one-shot dependency resolution, step 3 of
the admission protocol: every required role must be supplied with at least
one target, a single-binding role must not receive several targets, and
every supplied target must resolve against the current tree
(spec section 4.2 step 3). -/
def resolveDeps (schema : TypeSchema) (t : ConfigTree) (deps : DependencyMap) :
    Except BedrockError Unit :=
  match schema.deps.find?
      (fun d => d.required && ((deps.lookup d.role).getD []).isEmpty) with
  | some d => .error ⟨.MissingDependency, d.role⟩
  | none =>
    match schema.deps.find?
        (fun d => !d.multiple && 1 < ((deps.lookup d.role).getD []).length) with
    | some d => .error ⟨.DependencyArityError, d.role⟩
    | none =>
      match ((deps.map Prod.snd).flatten).find? (fun tg => !targetResolves t tg) with
      | some tg => .error ⟨.UnresolvedDependency, tg⟩
      | none => .ok ()

/-- Modelled from the spec: steps 1 to 5 of the admission protocol for
startProvider: name uniqueness in the providers section, type lookup,
dependency resolution, pool resolution, then construction; checks only, no
mutation (spec section 4.2). -/
def Manager.checkProvider (m : Manager) (name ty pool config : String)
    (deps : DependencyMap) : Except BedrockError Unit :=
  if (m.tree.providers.lookup name).isSome then
    .error ⟨.NameConflict, name⟩
  else
    match m.types.find? (fun s => s.name == ty) with
    | none => .error ⟨.UnknownType, ty⟩
    | some schema =>
      match resolveDeps schema m.tree deps with
      | .error e => .error e
      | .ok _ =>
        if pool != "" && !(m.pools.contains pool) then
          .error ⟨.UnknownPool, pool⟩
        else
          match schema.construct config with
          | .error msg => .error ⟨.ConstructionFailed, msg⟩
          | .ok _ => .ok ()

/-- Modelled from the spec: the full startProvider admission: on any check
failure the manager state comes back unchanged with the error, on success the
new entry is atomically committed into the providers section
(spec section 4.2 step 6). -/
def Manager.startProvider (m : Manager) (name ty : String) (pid : Nat)
    (pool config : String) (deps : DependencyMap) :
    Manager × Except BedrockError Unit :=
  match m.checkProvider name ty pool config deps with
  | .error e => (m, .error e)
  | .ok _ =>
      ({ m with tree := { m.tree with
          providers := m.tree.providers ++ [(name, ⟨ty, pid, pool, config, deps⟩)] } },
       .ok ())

/-- Modelled from the spec: steps 1 to 3 and 5 of the admission protocol for
createClient: name uniqueness in the clients section, type lookup, dependency
resolution, then construction; clients have no pool step
(spec sections 4.1 and 4.2). -/
def Manager.checkClient (m : Manager) (name ty config : String)
    (deps : DependencyMap) : Except BedrockError Unit :=
  if (m.tree.clients.lookup name).isSome then
    .error ⟨.NameConflict, name⟩
  else
    match m.types.find? (fun s => s.name == ty) with
    | none => .error ⟨.UnknownType, ty⟩
    | some schema =>
      match resolveDeps schema m.tree deps with
      | .error e => .error e
      | .ok _ =>
        match schema.construct config with
        | .error msg => .error ⟨.ConstructionFailed, msg⟩
        | .ok _ => .ok ()

/-- Modelled from the spec: the full createClient admission, all-or-nothing
like startProvider (spec section 4.2 step 6). -/
def Manager.createClient (m : Manager) (name ty config : String)
    (deps : DependencyMap) : Manager × Except BedrockError Unit :=
  match m.checkClient name ty config deps with
  | .error e => (m, .error e)
  | .ok _ =>
      ({ m with tree := { m.tree with
          clients := m.tree.clients ++ [(name, ⟨ty, config, deps⟩)] } },
       .ok ())

/-- Modelled from the spec: getConfig serializes the current tree
(spec section 4.4). -/
def Manager.getConfig (m : Manager) : String := m.tree.serialize

/-- Modelled from the spec: a query script is an opaque pure function over
the configuration tree (spec section 4.1). -/
abbrev Script : Type := ConfigTree → ConfigTree

/-- The identity script: returns the tree it is given. -/
def identityScript : Script := fun t => t

/-- Modelled from the spec: queryConfig evaluates the script on the current
snapshot and serializes its result; the tree is not mutated
(spec sections 4.1 and 4.4). -/
def Manager.queryConfig (m : Manager) (s : Script) : String :=
  (s m.tree).serialize

/-- The manager state used as a concrete input in witnesses: empty tree, no
registered type, no pool. -/
def emptyManager : Manager :=
  { tree := ConfigTree.empty, types := [], pools := [] }

/-- A remote environment whose every entry point fails with Unreachable,
used as a concrete input in witnesses. -/
def errRemote : Remote :=
  { getConfig := .error ⟨.Unreachable, "down"⟩,
    queryConfig := fun _ => .error ⟨.Unreachable, "down"⟩,
    addSSGgroup := fun _ => .error ⟨.Unreachable, "down"⟩,
    createABTioInstance := fun _ _ _ => .error ⟨.Unreachable, "down"⟩,
    loadModule := fun _ _ => .error ⟨.Unreachable, "down"⟩,
    startProvider := fun _ _ _ _ _ _ => .error ⟨.Unreachable, "down"⟩,
    createClient := fun _ _ _ _ => .error ⟨.Unreachable, "down"⟩ }

/-- Helper: the translated outcome of a string-returning remote call is a
returned string or a raised exception. -/
theorem clientVisible_str (x : Except BedrockError String) :
    PyOutcome.clientVisible (translateExc (x.map PyVal.str)) := by
  cases x <;> simp [translateExc, Except.map, PyOutcome.clientVisible]

/-- Helper: the translated outcome of a void remote call is a returned None
or a raised exception. -/
theorem clientVisible_void (x : Except BedrockError Unit) :
    PyOutcome.clientVisible (translateExc (x.map (fun _ => PyVal.pynone))) := by
  cases x <;> simp [translateExc, Except.map, PyOutcome.clientVisible]

/-- C1: for every one of the seven ServiceHandle operations and every failure
kind and message, the failure reaches the Python caller as a raised instance
of the single registered exception class of the module, carrying the kind and
the message; the outcome is never a returned value, so no error travels
through return codes or None results. -/
theorem claim_C1_single_exception_channel (sh : ServiceHandle) (r : Remote)
    (op : Op) (e : BedrockError) (h : r.respond op = .error e) :
    sh.invoke r op =
      (sh, .raised bedrockExceptionReg.qualified e.kind e.message) := by
  simp [ServiceHandle.invoke, h, translateExc]

/-- Witness for C1 at a concrete handle, operation and failure. -/
theorem claim_C1_witness :
    (ServiceHandle.mk "tcp" 0).invoke errRemote .get_config =
      (ServiceHandle.mk "tcp" 0,
        .raised bedrockExceptionReg.qualified .Unreachable "down") :=
  claim_C1_single_exception_channel ⟨"tcp", 0⟩ errRemote .get_config
    ⟨.Unreachable, "down"⟩ rfl

/-- C2: the bound start_provider takes name, type, provider_id, pool, config,
dependencies in that order, and when only name and type are supplied the
defaults fill provider_id with 0, pool with the empty string, config with the
empty JSON object, and dependencies with the empty map. -/
theorem claim_C2_start_provider_signature :
    start_provider_sig.params.map Param.name =
      ["name", "type", "provider_id", "pool", "config", "dependencies"] ∧
    ∀ vname vtype : PyVal,
      fillDefaults start_provider_sig.params [vname, vtype] =
        some [vname, vtype, PyVal.int 0, PyVal.str "",
              PyVal.str "\x7b\x7d", PyVal.depMap []] :=
  ⟨rfl, fun _ _ => rfl⟩

/-- C3: invoking any of the seven bound operations leaves the ServiceHandle
state unchanged, and the only observable client-side effect is a returned
string, a returned None, or a raised exception. -/
theorem claim_C3_no_client_mutation (sh : ServiceHandle) (r : Remote) (op : Op) :
    (sh.invoke r op).1 = sh ∧ ((sh.invoke r op).2).clientVisible := by
  refine ⟨rfl, ?_⟩
  cases op with
  | get_config => exact clientVisible_str r.getConfig
  | query_config script => exact clientVisible_str (r.queryConfig script)
  | add_ssg_group config => exact clientVisible_void (r.addSSGgroup config)
  | create_abtio_instance name pool config =>
      exact clientVisible_void (r.createABTioInstance name pool config)
  | load_module name path => exact clientVisible_void (r.loadModule name path)
  | start_provider name ty pid pool config deps =>
      exact clientVisible_void (r.startProvider name ty pid pool config deps)
  | create_client name ty config deps =>
      exact clientVisible_void (r.createClient name ty config deps)

/-- C4: whenever startProvider or createClient fails with any semantic error,
the manager state, and hence the serialized ConfigTree that getConfig and
queryConfig observe, is exactly what it was before the call: admission is
all-or-nothing and no partial entry becomes visible. -/
theorem claim_C4_atomic_admission (m : Manager) (name ty : String) (pid : Nat)
    (pool config : String) (deps : DependencyMap)
    (cname cty ccfg : String) (cdeps : DependencyMap) :
    (∀ e, (m.startProvider name ty pid pool config deps).2 = .error e →
        (m.startProvider name ty pid pool config deps).1 = m ∧
        (m.startProvider name ty pid pool config deps).1.getConfig =
          m.getConfig) ∧
    (∀ e, (m.createClient cname cty ccfg cdeps).2 = .error e →
        (m.createClient cname cty ccfg cdeps).1 = m ∧
        (m.createClient cname cty ccfg cdeps).1.getConfig = m.getConfig) := by
  constructor
  · intro e h
    unfold Manager.startProvider at h ⊢
    cases hc : m.checkProvider name ty pool config deps with
    | error e2 => simp [hc]
    | ok u => rw [hc] at h; simp at h
  · intro e h
    unfold Manager.createClient at h ⊢
    cases hc : m.checkClient cname cty ccfg cdeps with
    | error e2 => simp [hc]
    | ok u => rw [hc] at h; simp at h

/-- Witness for C4: on the empty manager both admissions fail with
UnknownType and the state is unchanged. -/
theorem claim_C4_witness :
    (emptyManager.startProvider "p" "t" 0 "" "\x7b\x7d" []).1 = emptyManager ∧
    (emptyManager.createClient "c" "t" "\x7b\x7d" []).1 = emptyManager :=
  ⟨((claim_C4_atomic_admission emptyManager "p" "t" 0 "" "\x7b\x7d" []
      "c" "t" "\x7b\x7d" []).1 ⟨.UnknownType, "t"⟩ rfl).1,
   ((claim_C4_atomic_admission emptyManager "p" "t" 0 "" "\x7b\x7d" []
      "c" "t" "\x7b\x7d" []).2 ⟨.UnknownType, "t"⟩ rfl).1⟩

/-- C5: the bound create_client takes exactly name, type, config,
dependencies, exposes neither a provider_id nor a pool argument, and when
only name and type are supplied the defaults fill config with the empty JSON
object and dependencies with the empty map. -/
theorem claim_C5_create_client_signature :
    create_client_sig.params.map Param.name =
      ["name", "type", "config", "dependencies"] ∧
    create_client_sig.params.all
      (fun p => p.name != "provider_id" && p.name != "pool") = true ∧
    ∀ vname vtype : PyVal,
      fillDefaults create_client_sig.params [vname, vtype] =
        some [vname, vtype, PyVal.str "\x7b\x7d", PyVal.depMap []] :=
  ⟨rfl, by decide, fun _ _ => rfl⟩

/-- C6: create_service_handle takes address then provider_id, provider_id
alone has a default and it is 0, and the produced ServiceHandle is bound to
exactly the given address and numeric instance id. -/
theorem claim_C6_create_service_handle :
    create_service_handle_sig.params.map Param.name =
      ["address", "provider_id"] ∧
    create_service_handle_sig.params.map Param.dflt =
      [none, some (.nat 0)] ∧
    (∀ v : PyVal, fillDefaults create_service_handle_sig.params [v] =
        some [v, PyVal.int 0]) ∧
    ∀ (c : Client) (a : String) (p : Nat),
      (c.makeServiceHandle a p).address = a ∧
      (c.makeServiceHandle a p).provider_id = p :=
  ⟨rfl, rfl, fun _ => rfl, fun _ _ _ => ⟨rfl, rfl⟩⟩

/-- C7: create_abtio_instance takes name, pool, config; name and pool carry
no default, so a call supplying only name is rejected, while omitting only
config fills it with the empty JSON object. -/
theorem claim_C7_create_abtio_signature :
    create_abtio_instance_sig.params.map Param.name =
      ["name", "pool", "config"] ∧
    create_abtio_instance_sig.params.map Param.dflt =
      [none, none, some (.str "\x7b\x7d")] ∧
    (∀ v : PyVal, fillDefaults create_abtio_instance_sig.params [v] = none) ∧
    ∀ vname vpool : PyVal,
      fillDefaults create_abtio_instance_sig.params [vname, vpool] =
        some [vname, vpool, PyVal.str "\x7b\x7d"] :=
  ⟨rfl, rfl, fun _ => rfl, fun _ _ => rfl⟩

/-- C8: for every manager state, the string returned by getConfig and the
string returned by queryConfig under any identity script are the same
serialization of the same tree. -/
theorem claim_C8_roundtrip (m : Manager) (s : Script) (hs : ∀ t, s t = t) :
    m.queryConfig s = m.getConfig := by
  unfold Manager.queryConfig Manager.getConfig
  rw [hs]

/-- Witness for C8 at the empty manager and the identity script. -/
theorem claim_C8_witness :
    emptyManager.queryConfig identityScript = emptyManager.getConfig :=
  claim_C8_roundtrip emptyManager identityScript (fun _ => rfl)

/-- C9: the provider_id argument of start_provider is a C++ uint16_t: every
integer outside 0 to 65535 is rejected at the binding layer before any RPC is
issued, and every in-range integer is forwarded unchanged inside the RPC. -/
theorem claim_C9_provider_id_range (name ty : String) (n : Int)
    (pool config : String) (deps : DependencyMap) :
    (¬(0 ≤ n ∧ n ≤ 65535) →
        start_provider_bind name ty n pool config deps = .typeError) ∧
    ((0 ≤ n ∧ n ≤ 65535) →
        start_provider_bind name ty n pool config deps =
          .rpc (.startProvider name ty n.toNat pool config deps) ∧
        (n.toNat : Int) = n) := by
  constructor
  · intro h
    simp [start_provider_bind, u16FromPyInt, h]
  · intro h
    exact ⟨by simp [start_provider_bind, u16FromPyInt, h],
           Int.toNat_of_nonneg h.1⟩

/-- Witness for C9: 70000 is rejected, 7 is forwarded unchanged. -/
theorem claim_C9_witness :
    start_provider_bind "p" "t" 70000 "" "\x7b\x7d" [] = .typeError ∧
    start_provider_bind "p" "t" 7 "" "\x7b\x7d" [] =
      .rpc (.startProvider "p" "t" 7 "" "\x7b\x7d" []) :=
  ⟨(claim_C9_provider_id_range "p" "t" 70000 "" "\x7b\x7d" []).1 (by decide),
   ((claim_C9_provider_id_range "p" "t" 7 "" "\x7b\x7d" []).2 (by decide)).1⟩

/-- C10: the registered exception class derives from RuntimeError, an
except-clause naming RuntimeError catches it, and every failure of every
operation is raised as exactly that class. -/
theorem claim_C10_runtime_error_subclass :
    bedrockExceptionReg.base = "RuntimeError" ∧
    catches "RuntimeError" bedrockExceptionReg.qualified = true ∧
    ∀ (sh : ServiceHandle) (r : Remote) (op : Op) (e : BedrockError),
      r.respond op = .error e →
      (sh.invoke r op).2 =
        .raised bedrockExceptionReg.qualified e.kind e.message := by
  refine ⟨rfl, by decide, fun sh r op e h => ?_⟩
  simp [ServiceHandle.invoke, h, translateExc]

/-- Witness for C10 at a concrete handle, operation and failure. -/
theorem claim_C10_witness :
    ((ServiceHandle.mk "tcp" 1).invoke errRemote (.add_ssg_group "g")).2 =
      .raised bedrockExceptionReg.qualified .Unreachable "down" :=
  claim_C10_runtime_error_subclass.2.2 ⟨"tcp", 1⟩ errRemote
    (.add_ssg_group "g") ⟨.Unreachable, "down"⟩ rfl
